import Mathlib

/-!
Shallow embedding of the V4L2 capture engine of `ramsafin/ros-video-streaming`
(src/src/V4L2VideoCapture.cpp and src/include/ros_video_streaming/*.hpp).

The kernel driver is modelled as an oracle structure holding the outcome of
each ioctl the capture object may issue; the capture functions are translated
from the C++ source as pure functions of (oracle, capture state).  Where a
function issues ioctls whose occurrence matters to a claim, it additionally
returns the list of operations it performed.
-/

namespace lirs

/-- V4L2 constant: `V4L2_CAP_VIDEO_CAPTURE` (linux/videodev2.h). -/
def V4L2_CAP_VIDEO_CAPTURE : Nat := 0x00000001

/-- V4L2 constant: `V4L2_CAP_STREAMING` (linux/videodev2.h). -/
def V4L2_CAP_STREAMING : Nat := 0x04000000

/-- V4L2 constant: `V4L2_BUF_FLAG_ERROR` (linux/videodev2.h). -/
def V4L2_BUF_FLAG_ERROR : Nat := 0x00000040

/-- V4L2 constant: `V4L2_INPUT_TYPE_CAMERA` (linux/videodev2.h). -/
def V4L2_INPUT_TYPE_CAMERA : Nat := 2

/-- V4L2 constant: `V4L2_IN_ST_NO_POWER` (linux/videodev2.h). -/
def V4L2_IN_ST_NO_POWER : Nat := 0x00000001

/-- V4L2 constant: `V4L2_IN_ST_NO_SIGNAL` (linux/videodev2.h). -/
def V4L2_IN_ST_NO_SIGNAL : Nat := 0x00000002

/-- Embeds `lirs::constants::V4L2_MAX_BUFFER_SIZE` = 32
(src/include/ros_video_streaming/constants.hpp, line 8).  The .cpp file refers
to it through the missing `v4l2_constants` namespace; the in-src constant is
the authority for its value. -/
def V4L2_MAX_BUFFER_SIZE : Nat := 32

/-- Embeds `static_cast<uint32_t>(v)` applied to a C++ `int` value: reduction modulo
2^32 of the twos-complement value, yielding a natural number. -/
def toUint32 (v : Int) : Nat := (v % (2 ^ 32 : Int)).toNat

/-- The `CaptureParam` enum keys of the configuration map `params_`
(constructor of `V4L2Capture`, src/src/V4L2VideoCapture.cpp lines 22-27). -/
inductive CaptureParam where
  | FRAME_WIDTH
  | FRAME_HEIGHT
  | FRAME_RATE
  | V4L2_PIX_FMT
  | V4L2_BUFFERS_NUM
deriving DecidableEq, Repr

/-- The configuration map `std::map<CaptureParam, int> params_`, embedded as a
total valuation (every key of the enum is present from construction). -/
def Params : Type := CaptureParam → Int

/-- Embeds `params_[key] = value` : pointwise update of the configuration map. -/
def updateParam (p : Params) (k : CaptureParam) (v : Int) : Params :=
  fun k2 => if k2 = k then v else p k2

/-- One element of `internalBuffers_`: a live memory mapping produced by
`mmap` in `allocateInternalBuffers` (`emplace_back(bufferData, bufferLength)`,
src/src/V4L2VideoCapture.cpp line 154). -/
structure MappedBuffer where
  rawDataPtr : Nat
  length : Nat
deriving DecidableEq, Repr

/-- The `fmt.fmt.pix` fields of a `v4l2_format` as written back by the driver
on `VIDIOC_S_FMT` / `VIDIOC_TRY_FMT` (see `lirs::tools::set_format`,
src/include/ros_video_streaming/tools.hpp lines 223-243). -/
structure PixFormat where
  pixelformat : Nat
  width : Nat
  height : Nat
  bytesperline : Nat
  sizeimage : Nat
deriving DecidableEq, Repr

/-- A dequeued `v4l2_buffer` descriptor as filled in by `VIDIOC_DQBUF`
(src/src/V4L2VideoCapture.cpp, `internalReadFrame`). -/
structure DqBuffer where
  index : Nat
  flags : Nat
  bytesused : Nat
deriving DecidableEq, Repr

/-- The operations the capture object performs against the kernel, recorded
where a claim is about their occurrence.  `QBUF i used` records the index and
the `bytesused` field of the buffer handed back to the driver; `MUNMAP` is the
release of one mapped region. -/
inductive IoctlOp where
  | REQBUFS (count : Nat)
  | QBUF (index : Nat) (bytesused : Nat)
  | DQBUF
  | MUNMAP (addr : Nat) (len : Nat)
deriving DecidableEq, Repr

/-- Oracle for the kernel driver: the outcome of each ioctl / syscall the
capture issues during one operation.  `none` means the call failed (returned
-1 after `EINTR` retries, with `errno` not `EINTR`). -/
structure Driver where
  /-- Embeds `VIDIOC_QUERYCAP`: `none` = ioctl failed, `some caps` = capability
  bitfield returned (`V4L2Utils::v4l2_query_capabilities`, mirrored in src by
  `lirs::tools::query_capabilities`, tools.hpp lines 148-158). -/
  querycap : Option Nat
  /-- Result of `V4L2Utils::v4l2_check_input_capabilities(handle_)`.
  Modelled from the spec: the helper body is in the missing
  `lirs_ros_video_streaming/V4L2VideoCapture.hpp`; the spec (§4.3) describes
  it as a side-effect-free boolean query of the current input, so it is an
  oracle boolean here. -/
  inputOk : Bool
  /-- Embeds `VIDIOC_TRY_FMT` outcome of `V4L2Utils::v4l2_try_format`.
  Modelled from the spec and from `lirs::tools::set_format` (tools.hpp lines
  223-243, `try_format = true` branch): issues the ioctl and reports success;
  no field of the returned format is compared against the request. -/
  tryFmtOk : Bool
  /-- Embeds `VIDIOC_S_FMT` outcome of `V4L2Utils::v4l2_set_format`.
  Modelled from the spec and from `lirs::tools::set_format` (tools.hpp lines
  223-243, `try_format = false` branch): on success the driver-side (possibly
  altered) `fmt` is returned verbatim; no comparison against the request. -/
  sfmt : Option PixFormat
  /-- Embeds `VIDIOC_S_PARM` outcome of `V4L2Utils::v4l2_set_frame_rate`: on success
  the returned `timeperframe.denominator` (mirrored in src by
  `lirs::tools::set_frame_rate`, tools.hpp lines 246-260). -/
  sparm : Option Nat
  /-- Embeds `VIDIOC_REQBUFS` with nonzero count: `none` = failed, `some granted` =
  the count field written back by the driver (a `__u32`). -/
  reqbufs : Option Nat
  /-- Embeds `VIDIOC_QUERYBUF` outcome at each buffer index. -/
  querybufOk : Nat → Bool
  /-- The `length` field `VIDIOC_QUERYBUF` reports for each index. -/
  querybufLength : Nat → Nat
  /-- Embeds `mmap` outcome at each index: `none` = `MAP_FAILED`, `some addr` =
  address of the new mapping. -/
  mmapAddr : Nat → Option Nat
  /-- Embeds `VIDIOC_QBUF` outcome at each index during `enableStreaming`. -/
  qbufOk : Nat → Bool
  /-- Embeds `VIDIOC_STREAMON` outcome. -/
  streamonOk : Bool
  /-- Embeds `VIDIOC_STREAMOFF` outcome. -/
  streamoffOk : Bool
  /-- Embeds `V4L2Utils::v4l2_is_readable(handle_)`: `select` readiness on the
  descriptor (mirrored in src by `lirs::tools::is_readable`, tools.hpp lines
  36-50). -/
  readable : Bool
  /-- Embeds `VIDIOC_DQBUF` outcome in `internalReadFrame`: `none` = failed with
  `EAGAIN`/`EIO`/other after `EINTR` retries, `some b` = dequeued buffer. -/
  dqbuf : Option DqBuffer

/-- The state of a `V4L2Capture` object
(src/src/V4L2VideoCapture.cpp lines 15-30). -/
structure V4L2Capture where
  /-- Embeds `handle_`; `-1` (`CLOSED_HANDLE`) means not opened. -/
  handle : Int
  /-- Embeds `imageStep_` (bytes per line recorded by `negotiateFormat`). -/
  imageStep : Nat
  /-- Embeds `imageSize_` (sizeimage recorded by `negotiateFormat`). -/
  imageSize : Nat
  /-- Embeds `isStreaming_`. -/
  isStreaming : Bool
  /-- Embeds `params_`. -/
  params : Params
  /-- Embeds `internalBuffers_`: the ring of live memory mappings. -/
  internalBuffers : List MappedBuffer

/-- Embeds `v4l2_constants::CLOSED_HANDLE` (mirrored in src by
`lirs::tools::details::CLOSED_HANDLE`, tools.hpp line 31). -/
def CLOSED_HANDLE : Int := -1

/-- Embeds `V4L2Capture::IsOpened` (src/src/V4L2VideoCapture.cpp lines 32-34). -/
def IsOpened (c : V4L2Capture) : Bool := c.handle != CLOSED_HANDLE

/-- Embeds `V4L2Capture::IsStreaming` (src/src/V4L2VideoCapture.cpp lines 36-38). -/
def IsStreaming (c : V4L2Capture) : Bool := c.isStreaming

/-- Embeds `V4L2Capture::Get` (src/src/V4L2VideoCapture.cpp lines 95-97). -/
def Get (c : V4L2Capture) (param : CaptureParam) : Int := c.params param

/-- Embeds `V4L2Utils::is_in_range_inclusive(low, high, value)`.
Modelled from the spec and from `lirs::tools::is_in_range` (tools.hpp lines
263-267): `value >= low && value <= high`. -/
def is_in_range_inclusive (low high value : Int) : Bool :=
  low ≤ value && value ≤ high

/-- Embeds `V4L2Capture::Set` (src/src/V4L2VideoCapture.cpp lines 77-93): refuses
any change while streaming; for `V4L2_BUFFERS_NUM` the value is range-checked
against `[1, V4L2_MAX_BUFFER_SIZE]`; otherwise the map is updated. -/
def Set (c : V4L2Capture) (param : CaptureParam) (value : Int) :
    Bool × V4L2Capture :=
  if IsStreaming c then (false, c)
  else
    match param with
    | CaptureParam.V4L2_BUFFERS_NUM =>
        if !is_in_range_inclusive 1 (Int.ofNat V4L2_MAX_BUFFER_SIZE) value then
          (false, c)
        else (true, { c with params := updateParam c.params param value })
    | _ => (true, { c with params := updateParam c.params param value })

/-- Embeds `V4L2Utils::v4l2_check_capabilities(caps, required)`.
Modelled from the spec (§4.3: true iff the bitfield contains the required
capabilities) and from `lirs::tools::check_video_streaming_caps` (tools.hpp
lines 160-173). -/
def v4l2_check_capabilities (caps required : Nat) : Bool :=
  Nat.land caps required == required

/-- Embeds `V4L2Capture::checkSupportedCapabilities`
(src/src/V4L2VideoCapture.cpp lines 240-250): when `QUERYCAP` succeeds, the
input check and the capability-bit check decide; when `QUERYCAP` itself
fails, the function returns `true`. -/
def checkSupportedCapabilities (d : Driver) : Bool :=
  match d.querycap with
  | some caps =>
      d.inputOk &&
        v4l2_check_capabilities caps
          (Nat.lor V4L2_CAP_VIDEO_CAPTURE V4L2_CAP_STREAMING)
  | none => true

/-- Embeds `V4L2Capture::negotiateFormat` (src/src/V4L2VideoCapture.cpp lines
212-227): `TRY_FMT`, then `S_FMT`; on success the driver-side `bytesperline`
and `sizeimage` are recorded.  No field of the accepted format is compared
against the requested triple. -/
def negotiateFormat (d : Driver) (c : V4L2Capture) : Bool × V4L2Capture :=
  if d.tryFmtOk then
    match d.sfmt with
    | some format =>
        (true, { c with imageStep := format.bytesperline,
                        imageSize := format.sizeimage })
    | none => (false, c)
  else (false, c)

/-- Embeds `V4L2Capture::negotiateFrameRate` (src/src/V4L2VideoCapture.cpp lines
229-238): `S_PARM`; on success the driver-returned denominator is adopted
as the effective frame rate. -/
def negotiateFrameRate (d : Driver) (c : V4L2Capture) : Bool × V4L2Capture :=
  match d.sparm with
  | some den =>
      (true, { c with params :=
                 updateParam c.params CaptureParam.FRAME_RATE (Int.ofNat den) })
  | none => (false, c)

/-- The `QUERYBUF` + `mmap` loop of `allocateInternalBuffers`
(src/src/V4L2VideoCapture.cpp lines 138-155), recursing on the number of
remaining indices.  On a `QUERYBUF` or `mmap` failure the loop stops and the
buffers emplaced so far are kept (the source returns `false` with
`internalBuffers_` partially filled). -/
def mapBuffersLoop (d : Driver) :
    Nat → Nat → List MappedBuffer → Bool × List MappedBuffer
  | 0, _, acc => (true, acc)
  | remaining + 1, i, acc =>
      if d.querybufOk i then
        match d.mmapAddr i with
        | some addr =>
            mapBuffersLoop d remaining (i + 1)
              (acc ++ [⟨addr, d.querybufLength i⟩])
        | none => (false, acc)
      else (false, acc)

/-- Embeds `V4L2Capture::allocateInternalBuffers` (src/src/V4L2VideoCapture.cpp
lines 108-158): `REQBUFS` with the configured count; if the granted count
differs it is adopted into `params_` (with a warning); then each granted
index is queried and memory-mapped. -/
def allocateInternalBuffers (d : Driver) (c : V4L2Capture) :
    Bool × V4L2Capture :=
  let requested := toUint32 (Get c CaptureParam.V4L2_BUFFERS_NUM)
  match d.reqbufs with
  | none => (false, c)
  | some granted =>
      let c1 :=
        if granted ≠ requested then
          { c with params := (updateParam c.params
              CaptureParam.V4L2_BUFFERS_NUM (Int.ofNat granted)) }
        else c
      let r := mapBuffersLoop d granted 0 c1.internalBuffers
      (r.1, { c1 with internalBuffers := r.2 })

/-- Embeds `V4L2Capture::cleanupInternalBuffers` (src/src/V4L2VideoCapture.cpp
lines 160-175): when the ring is non-empty, clear it — destroying each
`MappedBuffer` releases its mapping exactly once (RAII unmap; modelled from
the spec §3/§9, the `MappedBuffer` type lives in the missing
`lirs_ros_video_streaming/V4L2VideoCapture.hpp`) — then issue
`REQBUFS(count = 0)`.  When the ring is empty nothing is done.  The second
component records the operations performed. -/
def cleanupInternalBuffers (c : V4L2Capture) : V4L2Capture × List IoctlOp :=
  if c.internalBuffers.isEmpty then (c, [])
  else
    ({ c with internalBuffers := [] },
      c.internalBuffers.map (fun b => IoctlOp.MUNMAP b.rawDataPtr b.length)
        ++ [IoctlOp.REQBUFS 0])

/-- The `QBUF` loop of `enableStreaming` (src/src/V4L2VideoCapture.cpp lines
182-188), recursing on the number of remaining indices. -/
def qbufLoop (d : Driver) : Nat → Nat → Bool
  | 0, _ => true
  | remaining + 1, i => if d.qbufOk i then qbufLoop d remaining (i + 1) else false

/-- Embeds `V4L2Capture::enableStreaming` (src/src/V4L2VideoCapture.cpp lines
177-198): queue every buffer, then `STREAMON`; on success `isStreaming_`
becomes true. -/
def enableStreaming (d : Driver) (c : V4L2Capture) : Bool × V4L2Capture :=
  if qbufLoop d (toUint32 (Get c CaptureParam.V4L2_BUFFERS_NUM)) 0 then
    if d.streamonOk then (true, { c with isStreaming := true })
    else (false, c)
  else (false, c)

/-- Embeds `V4L2Capture::disableSteaming` (src/src/V4L2VideoCapture.cpp lines
200-210): `STREAMOFF`; only on success is `isStreaming_` cleared. -/
def disableSteaming (d : Driver) (c : V4L2Capture) : Bool × V4L2Capture :=
  if d.streamoffOk then (true, { c with isStreaming := false })
  else (false, c)

/-- The tail of `StartStreaming` past the capability check
(src/src/V4L2VideoCapture.cpp lines 47-56): negotiate format, negotiate
frame rate, allocate buffers (cleaning up on allocation failure), enable
streaming. -/
def startTail (d : Driver) (c : V4L2Capture) : Bool × V4L2Capture :=
  let nf := negotiateFormat d c
  if nf.1 then
    let nr := negotiateFrameRate d nf.2
    if nr.1 then
      let al := allocateInternalBuffers d nr.2
      if al.1 then enableStreaming d al.2
      else (false, (cleanupInternalBuffers al.2).1)
    else (false, nr.2)
  else (false, nf.2)

/-- Embeds `V4L2Capture::StartStreaming` (src/src/V4L2VideoCapture.cpp lines
40-57). -/
def StartStreaming (d : Driver) (c : V4L2Capture) : Bool × V4L2Capture :=
  if !IsOpened c then (false, c)
  else if IsStreaming c then (true, c)
  else if !checkSupportedCapabilities d then (false, c)
  else startTail d c

/-- Embeds `V4L2Capture::StopStreaming` (src/src/V4L2VideoCapture.cpp lines 59-75):
closed handle fails; not streaming is a no-op `true`; a `STREAMOFF` failure
returns `false` without touching the ring; on success the ring is cleaned
up.  The third component records the teardown operations performed. -/
def StopStreaming (d : Driver) (c : V4L2Capture) :
    Bool × V4L2Capture × List IoctlOp :=
  if !IsOpened c then (false, c, [])
  else if !IsStreaming c then (true, c, [])
  else
    let ds := disableSteaming d c
    if !ds.1 then (false, ds.2, [])
    else
      let cl := cleanupInternalBuffers ds.2
      (true, cl.1, cl.2)

/-- A delivered frame as built by `internalReadFrame`
(src/src/V4L2VideoCapture.cpp line 297): the data pointer of the mapped region and
the dequeued `bytesused`. -/
structure Frame where
  dataPtr : Nat
  length : Nat
deriving DecidableEq, Repr

/-- Embeds `V4L2Capture::internalReadFrame` (src/src/V4L2VideoCapture.cpp lines
252-304): `DQBUF` (retrying `EINTR`); on failure return `none`.  If the
dequeued descriptor has the `ERROR` flag set or its `bytesused` differs from
the recorded `sizeimage`, clear `bytesused`, requeue the same buffer and
return `none`; otherwise build a `Frame` from the mapped region at the
index of that buffer and requeue it.  The second component records the queue
operations performed. -/
def internalReadFrame (d : Driver) (c : V4L2Capture) :
    Option Frame × List IoctlOp :=
  match d.dqbuf with
  | none => (none, [IoctlOp.DQBUF])
  | some buffer =>
      if Nat.land buffer.flags V4L2_BUF_FLAG_ERROR ≠ 0 ∨
          buffer.bytesused ≠ c.imageSize then
        (none, [IoctlOp.DQBUF, IoctlOp.QBUF buffer.index 0])
      else
        (some ⟨(c.internalBuffers.getD buffer.index ⟨0, 0⟩).rawDataPtr,
               buffer.bytesused⟩,
          [IoctlOp.DQBUF, IoctlOp.QBUF buffer.index buffer.bytesused])

/-- Embeds `V4L2Capture::ReadFrame` (src/src/V4L2VideoCapture.cpp lines 99-106):
only when streaming and the descriptor is readable is a dequeue attempted;
in every other case `std::nullopt` is returned and no ioctl is issued. -/
def ReadFrame (d : Driver) (c : V4L2Capture) : Option Frame × List IoctlOp :=
  if IsStreaming c then
    if d.readable then internalReadFrame d c
    else (none, [])
  else (none, [])

/-- Embeds `lirs::tools::check_video_input`
(src/include/ros_video_streaming/tools.hpp lines 125-146), translated
verbatim: a `v4l2_input` struct is zero-initialized, its `index` field is
set, and `VIDIOC_G_INPUT` is issued on `&input.index` — which writes only the
`index` field.  The subsequent `type` and `status` tests therefore read the
zero-initialized fields: no `VIDIOC_ENUMINPUT` call ever fills them. -/
def check_video_input (ginput : Option Nat) (index : Nat) : Bool :=
  match ginput with
  | none => false
  | some _ =>
      let inputType : Nat := 0
      let inputStatus : Nat := 0
      if inputType ≠ V4L2_INPUT_TYPE_CAMERA then false
      else if Nat.land inputStatus
          (Nat.lor V4L2_IN_ST_NO_POWER V4L2_IN_ST_NO_SIGNAL) ≠ 0 then false
      else true

/-- The current-input check as the spec describes it (§4.3 item 3), for
comparison with `check_video_input`: `G_INPUT` yields the current index, the
`ENUMINPUT` record of that index supplies `type` and `status`, and the check
is true iff the type is `CAMERA` and neither `NO_POWER` nor `NO_SIGNAL` is
set. -/
def check_video_input_spec (ginput : Option Nat)
    (enuminputType enuminputStatus : Nat → Nat) : Bool :=
  match ginput with
  | none => false
  | some idx =>
      enuminputType idx == V4L2_INPUT_TYPE_CAMERA &&
        Nat.land (enuminputStatus idx)
          (Nat.lor V4L2_IN_ST_NO_POWER V4L2_IN_ST_NO_SIGNAL) == 0

/-! ### Concrete fixtures used by witnesses and counterexamples -/

/-- The configuration map produced by the constructor for a request of
YUYV 640x480 at 30 fps with 4 buffers (src/src/V4L2VideoCapture.cpp lines
22-27; defaults of spec §6). -/
def defaultParams : Params := fun p =>
  match p with
  | CaptureParam.FRAME_WIDTH => 640
  | CaptureParam.FRAME_HEIGHT => 480
  | CaptureParam.FRAME_RATE => 30
  | CaptureParam.V4L2_PIX_FMT => 0x56595559
  | CaptureParam.V4L2_BUFFERS_NUM => 4

/-- An opened, non-streaming capture object (successful `open`, empty ring). -/
def openedCapture : V4L2Capture :=
  { handle := 3, imageStep := 0, imageSize := 0, isStreaming := false,
    params := defaultParams, internalBuffers := [] }

/-- A driver oracle on which every call succeeds and the request is honored
verbatim: YUYV 640x480, sizeimage 614400, 4 buffers granted. -/
def okDriver : Driver :=
  { querycap := some (Nat.lor V4L2_CAP_VIDEO_CAPTURE V4L2_CAP_STREAMING),
    inputOk := true,
    tryFmtOk := true,
    sfmt := some ⟨0x56595559, 640, 480, 1280, 614400⟩,
    sparm := some 30,
    reqbufs := some 4,
    querybufOk := fun _ => true,
    querybufLength := fun _ => 614400,
    mmapAddr := fun i => some (4096 * (i + 1)),
    qbufOk := fun _ => true,
    streamonOk := true,
    streamoffOk := true,
    readable := true,
    dqbuf := none }

/-- A streaming capture object with a negotiated size and a two-buffer ring,
as produced by a successful start. -/
def streamingCapture : V4L2Capture :=
  { handle := 3, imageStep := 1280, imageSize := 614400, isStreaming := true,
    params := defaultParams,
    internalBuffers := [⟨4096, 614400⟩, ⟨8192, 614400⟩] }

/-! ### Claim C9 -/

/-- C9: for every parameter `k` and value `v`, calling `Set k v` while
streaming returns `false` and leaves the configuration map (indeed the whole
object) unchanged. -/
theorem Set_while_streaming_rejected (c : V4L2Capture) (k : CaptureParam)
    (v : Int) (h : IsStreaming c = true) : Set c k v = (false, c) := by
  simp [Set, h]

theorem Set_while_streaming_rejected_witness :
    IsStreaming streamingCapture = true ∧
      Set streamingCapture CaptureParam.FRAME_WIDTH 1024 =
        (false, streamingCapture) :=
  ⟨rfl,
    Set_while_streaming_rejected streamingCapture CaptureParam.FRAME_WIDTH
      1024 rfl⟩

/-! ### Claim C8 -/

/-- C8: in every state other than streaming, `ReadFrame` returns `none`,
performs no ioctl at all (in particular no dequeue) and raises no error. -/
theorem ReadFrame_not_streaming (d : Driver) (c : V4L2Capture)
    (h : IsStreaming c = false) : ReadFrame d c = (none, []) := by
  simp [ReadFrame, h]

theorem ReadFrame_not_streaming_witness :
    IsStreaming openedCapture = false ∧
      ReadFrame okDriver openedCapture = (none, []) :=
  ⟨rfl, ReadFrame_not_streaming okDriver openedCapture rfl⟩

/-! ### Claim C10 -/

/-- C10: if `QUERYCAP` itself fails (no capability record),
`checkSupportedCapabilities` returns `true`, so `StartStreaming` on an
opened, non-streaming object proceeds to format negotiation (`startTail`)
with unverified driver capabilities instead of failing. -/
theorem checkSupportedCapabilities_querycap_failure (d : Driver)
    (c : V4L2Capture) (h : d.querycap = none) (ho : IsOpened c = true)
    (hs : IsStreaming c = false) :
    checkSupportedCapabilities d = true ∧
      StartStreaming d c = startTail d c := by
  have hc : checkSupportedCapabilities d = true := by
    simp [checkSupportedCapabilities, h]
  exact ⟨hc, by simp [StartStreaming, ho, hs, hc]⟩

/-- Driver on which the capability query itself fails. -/
def noCapDriver : Driver := { okDriver with querycap := none }

theorem checkSupportedCapabilities_querycap_failure_witness :
    noCapDriver.querycap = none ∧ IsOpened openedCapture = true ∧
      IsStreaming openedCapture = false ∧
      (checkSupportedCapabilities noCapDriver = true ∧
        StartStreaming noCapDriver openedCapture =
          startTail noCapDriver openedCapture) :=
  ⟨rfl, rfl, rfl,
    checkSupportedCapabilities_querycap_failure noCapDriver openedCapture rfl
      rfl rfl⟩

/-! ### Claim C5 -/

/-- C5 (code bug): `lirs::tools::check_video_input` never returns `true` —
for every `G_INPUT` outcome and every index it returns `false`, because the
`type`/`status` fields it tests belong to the zero-initialized local
`v4l2_input` (no `VIDIOC_ENUMINPUT` is ever issued, and `VIDIOC_G_INPUT`
writes only the index).  The check described by the spec
(`check_video_input_spec`), by contrast, returns `true` on a current input
whose `ENUMINPUT` record is a camera with a clean status. -/
theorem check_video_input_never_true :
    (∀ (g : Option Nat) (i : Nat), check_video_input g i = false) ∧
      check_video_input_spec (some 0) (fun _ => V4L2_INPUT_TYPE_CAMERA)
        (fun _ => 0) = true := by
  refine ⟨fun g i => ?_, by decide⟩
  cases g <;> simp [check_video_input, V4L2_INPUT_TYPE_CAMERA]

/-! ### Claim C6 -/

/-- C6 counterexample: while not streaming, `Set(V4L2_BUFFERS_NUM, 1)`
succeeds and installs 1 in the configuration map — the range check in the source
is `[1, 32]`, not the claimed `[2, 32]`. -/
theorem set_buffers_one_accepted_cex :
    IsStreaming openedCapture = false ∧
      (Set openedCapture CaptureParam.V4L2_BUFFERS_NUM 1).1 = true ∧
      Get (Set openedCapture CaptureParam.V4L2_BUFFERS_NUM 1).2
        CaptureParam.V4L2_BUFFERS_NUM = 1 := by
  refine ⟨rfl, rfl, rfl⟩

/-- C6 (amended): while not streaming, `Set(V4L2_BUFFERS_NUM, v)` succeeds
iff `v ∈ [1, 32]`; on success the value is installed, and out-of-range
values are rejected with the configuration unchanged. -/
theorem Set_buffers_range (c : V4L2Capture) (v : Int)
    (h : IsStreaming c = false) :
    ((Set c CaptureParam.V4L2_BUFFERS_NUM v).1 = true ↔ 1 ≤ v ∧ v ≤ 32) ∧
      (1 ≤ v ∧ v ≤ 32 →
        Get (Set c CaptureParam.V4L2_BUFFERS_NUM v).2
          CaptureParam.V4L2_BUFFERS_NUM = v) ∧
      (¬(1 ≤ v ∧ v ≤ 32) →
        Set c CaptureParam.V4L2_BUFFERS_NUM v = (false, c)) := by
  have hiff : is_in_range_inclusive 1 (Int.ofNat V4L2_MAX_BUFFER_SIZE) v
      = true ↔ (1 ≤ v ∧ v ≤ 32) := by
    simp only [is_in_range_inclusive, V4L2_MAX_BUFFER_SIZE,
      Bool.and_eq_true, decide_eq_true_eq, Int.ofNat_eq_natCast,
      Nat.cast_ofNat]
  cases hc : is_in_range_inclusive 1 (Int.ofNat V4L2_MAX_BUFFER_SIZE) v with
  | false =>
      have hr : ¬(1 ≤ v ∧ v ≤ 32) := by
        intro hx
        rw [hiff.mpr hx] at hc
        exact Bool.noConfusion hc
      have hc2 : is_in_range_inclusive 1 (↑V4L2_MAX_BUFFER_SIZE) v = false := by
        simpa only [Int.ofNat_eq_natCast] using hc
      refine ⟨?_, fun hx => absurd hx hr, fun _ => ?_⟩
      · simp [Set, h, hc2, hr]
      · simp [Set, h, hc2]
  | true =>
      have hr : 1 ≤ v ∧ v ≤ 32 := hiff.mp hc
      have hc2 : is_in_range_inclusive 1 (↑V4L2_MAX_BUFFER_SIZE) v = true := by
        simpa only [Int.ofNat_eq_natCast] using hc
      refine ⟨?_, fun _ => ?_, fun hx => absurd hr hx⟩
      · simp [Set, h, hc2, hr]
      · simp [Set, h, hc2, Get, updateParam]

theorem Set_buffers_range_witness :
    IsStreaming openedCapture = false ∧
      ((Set openedCapture CaptureParam.V4L2_BUFFERS_NUM 1).1 = true ↔
        (1 : Int) ≤ 1 ∧ (1 : Int) ≤ 32) :=
  ⟨rfl, (Set_buffers_range openedCapture 1 rfl).1⟩

/-! ### Claim C1 -/

/-- A driver that accepts `TRY_FMT`/`S_FMT` but silently alters the
resolution: 320x240 instead of the requested 640x480. -/
def alteredFmtDriver : Driver :=
  { okDriver with sfmt := some ⟨0x56595559, 320, 240, 640, 153600⟩ }

/-- C1 counterexample: with a driver that silently alters the requested
640x480 to 320x240, `StartStreaming` succeeds and adopts the altered
`sizeimage` — format negotiation does not fail on a differing triple. -/
theorem negotiation_accepts_altered_format_cex :
    toUint32 (Get openedCapture CaptureParam.FRAME_WIDTH) = 640 ∧
      alteredFmtDriver.sfmt = some ⟨0x56595559, 320, 240, 640, 153600⟩ ∧
      (StartStreaming alteredFmtDriver openedCapture).1 = true ∧
      (StartStreaming alteredFmtDriver openedCapture).2.imageSize = 153600 := by
  refine ⟨by decide, rfl, by decide, by decide⟩

/-- C1 (amended): `negotiateFormat` performs no comparison of the accepted
`pixel_format`/`width`/`height` against the request — whenever `TRY_FMT` and
`S_FMT` succeed it returns `true` and records the driver-side `bytesperline` and
`sizeimage`, whatever triple the driver chose. -/
theorem negotiateFormat_adopts_driver_values (d : Driver) (c : V4L2Capture)
    (f : PixFormat) (ht : d.tryFmtOk = true) (hs : d.sfmt = some f) :
    negotiateFormat d c =
      (true,
        { c with imageStep := f.bytesperline, imageSize := f.sizeimage }) := by
  simp [negotiateFormat, ht, hs]

theorem negotiateFormat_adopts_driver_values_witness :
    alteredFmtDriver.tryFmtOk = true ∧
      alteredFmtDriver.sfmt = some ⟨0x56595559, 320, 240, 640, 153600⟩ ∧
      negotiateFormat alteredFmtDriver openedCapture =
        (true, { openedCapture with imageStep := 640, imageSize := 153600 }) :=
  ⟨rfl, rfl,
    negotiateFormat_adopts_driver_values alteredFmtDriver openedCapture
      ⟨0x56595559, 320, 240, 640, 153600⟩ rfl rfl⟩

/-! ### Claim C2 -/

/-- A driver that grants 1 buffer when asked for more; everything else
succeeds. -/
def grantOneDriver : Driver := { okDriver with reqbufs := some 1 }

/-- C2 counterexample: a driver granting 1 buffer (fewer than 2) does not
make start fail — `StartStreaming` succeeds, adopting 1 as the effective
buffer count with a one-element ring. -/
theorem start_succeeds_when_driver_grants_one_cex :
    Get openedCapture CaptureParam.V4L2_BUFFERS_NUM = 4 ∧
      grantOneDriver.reqbufs = some 1 ∧
      (StartStreaming grantOneDriver openedCapture).1 = true ∧
      Get (StartStreaming grantOneDriver openedCapture).2
          CaptureParam.V4L2_BUFFERS_NUM = 1 ∧
      (StartStreaming grantOneDriver openedCapture).2.internalBuffers.length
        = 1 := by
  refine ⟨rfl, rfl, by decide, by decide, by decide⟩

/-- The query-and-map loop succeeds and grows the ring by one mapping per
index when every `QUERYBUF` and `mmap` succeeds. -/
theorem mapBuffersLoop_all_ok (d : Driver)
    (hq : ∀ i, d.querybufOk i = true) (hm : ∀ i, (d.mmapAddr i).isSome) :
    ∀ (n i : Nat) (acc : List MappedBuffer),
      (mapBuffersLoop d n i acc).1 = true ∧
        (mapBuffersLoop d n i acc).2.length = acc.length + n := by
  intro n
  induction n with
  | zero => intro i acc; simp [mapBuffersLoop]
  | succ m ih =>
      intro i acc
      obtain ⟨addr, ha⟩ := Option.isSome_iff_exists.mp (hm i)
      have h2 := ih (i + 1) (acc ++ [⟨addr, d.querybufLength i⟩])
      refine ⟨?_, ?_⟩ <;>
        simp only [mapBuffersLoop, hq i, ha, if_true] <;>
        simp [h2.1, h2.2] <;> omega

/-- C2 (amended): when `REQBUFS` grants a count different from the requested
one, the granted count is adopted into the configuration (with a warning)
and allocation continues regardless of how small the grant is — there is no
minimum-2 check, so a grant of 1 (or even 0) still succeeds. -/
theorem reqbufs_grant_adopted (d : Driver) (c : V4L2Capture) (granted : Nat)
    (hreq : d.reqbufs = some granted)
    (hne : granted ≠ toUint32 (Get c CaptureParam.V4L2_BUFFERS_NUM))
    (hq : ∀ i, d.querybufOk i = true) (hm : ∀ i, (d.mmapAddr i).isSome) :
    (allocateInternalBuffers d c).1 = true ∧
      Get (allocateInternalBuffers d c).2 CaptureParam.V4L2_BUFFERS_NUM
        = Int.ofNat granted := by
  have hloop := mapBuffersLoop_all_ok d hq hm granted 0
  have hne2 : ¬granted = toUint32 (c.params CaptureParam.V4L2_BUFFERS_NUM) :=
    hne
  constructor <;>
    simp [allocateInternalBuffers, hreq, hne2, Get, updateParam,
      (hloop _).1]

theorem reqbufs_grant_adopted_witness :
    grantOneDriver.reqbufs = some 1 ∧
      (1 ≠ toUint32 (Get openedCapture CaptureParam.V4L2_BUFFERS_NUM)) ∧
      ((allocateInternalBuffers grantOneDriver openedCapture).1 = true ∧
        Get (allocateInternalBuffers grantOneDriver openedCapture).2
          CaptureParam.V4L2_BUFFERS_NUM = Int.ofNat 1) :=
  ⟨rfl, by decide,
    reqbufs_grant_adopted grantOneDriver openedCapture 1 rfl (by decide)
      (fun _ => rfl) (fun _ => rfl)⟩

/-! ### Claim C4 -/

/-- A driver on which `STREAMOFF` fails; everything else succeeds. -/
def streamoffFailDriver : Driver := { okDriver with streamoffOk := false }

/-- C4 counterexample: when `STREAMOFF` fails, `StopStreaming` returns
`false`, the object is still streaming, the ring is retained untouched and
no teardown operation is performed — the state does not proceed out of
streaming. -/
theorem stop_blocked_by_streamoff_failure_cex :
    IsStreaming streamingCapture = true ∧
      streamoffFailDriver.streamoffOk = false ∧
      (StopStreaming streamoffFailDriver streamingCapture).1 = false ∧
      (StopStreaming streamoffFailDriver streamingCapture).2.1.isStreaming
        = true ∧
      (StopStreaming streamoffFailDriver streamingCapture).2.1.internalBuffers
        = streamingCapture.internalBuffers ∧
      (StopStreaming streamoffFailDriver streamingCapture).2.2 = [] := by
  refine ⟨rfl, rfl, by decide, by decide, by decide, by decide⟩

/-- C4 (amended): a `STREAMOFF` failure on an opened, streaming object makes
`StopStreaming` return `false` and blocks the transition — the object stays
exactly as it was (still streaming, ring retained) and no teardown operation
is issued; the ring is released only when `STREAMOFF` succeeds. -/
theorem streamoff_failure_retains_state (d : Driver) (c : V4L2Capture)
    (ho : IsOpened c = true) (hs : IsStreaming c = true)
    (hoff : d.streamoffOk = false) :
    StopStreaming d c = (false, c, []) := by
  simp [StopStreaming, ho, hs, disableSteaming, hoff]

theorem streamoff_failure_retains_state_witness :
    IsOpened streamingCapture = true ∧
      IsStreaming streamingCapture = true ∧
      streamoffFailDriver.streamoffOk = false ∧
      StopStreaming streamoffFailDriver streamingCapture =
        (false, streamingCapture, []) :=
  ⟨rfl, rfl, rfl,
    streamoff_failure_retains_state streamoffFailDriver streamingCapture rfl
      rfl rfl⟩

/-! ### Claim C7 -/

/-- C7: on a read in the streaming state with a readable descriptor, if the
dequeued descriptor has the `ERROR` flag set or its `bytesused` differs from
the negotiated `sizeimage`, the read clears `bytesused`, requeues the same
buffer index and returns `none` instead of a frame. -/
theorem corrupted_buffer_requeued (d : Driver) (c : V4L2Capture)
    (b : DqBuffer) (hs : IsStreaming c = true) (hr : d.readable = true)
    (hd : d.dqbuf = some b)
    (hbad : Nat.land b.flags V4L2_BUF_FLAG_ERROR ≠ 0 ∨
      b.bytesused ≠ c.imageSize) :
    ReadFrame d c = (none, [IoctlOp.DQBUF, IoctlOp.QBUF b.index 0]) := by
  have hint : internalReadFrame d c
      = (none, [IoctlOp.DQBUF, IoctlOp.QBUF b.index 0]) := by
    unfold internalReadFrame
    rw [hd]
    exact if_pos hbad
  simp [ReadFrame, hs, hr, hint]

/-- A driver that dequeues a buffer whose `ERROR` flag is set. -/
def corruptDriver : Driver :=
  { okDriver with dqbuf := some ⟨1, V4L2_BUF_FLAG_ERROR, 614400⟩ }

theorem corrupted_buffer_requeued_witness :
    IsStreaming streamingCapture = true ∧
      corruptDriver.readable = true ∧
      corruptDriver.dqbuf = some ⟨1, V4L2_BUF_FLAG_ERROR, 614400⟩ ∧
      ReadFrame corruptDriver streamingCapture =
        (none, [IoctlOp.DQBUF, IoctlOp.QBUF 1 0]) :=
  ⟨rfl, rfl, rfl,
    corrupted_buffer_requeued corruptDriver streamingCapture
      ⟨1, V4L2_BUF_FLAG_ERROR, 614400⟩ rfl rfl rfl
      (Or.inl (by decide))⟩

/-! ### Claim C3 -/

/-- When the query-and-map loop reports success it mapped exactly one region
per remaining index. -/
theorem mapBuffersLoop_length (d : Driver) :
    ∀ (n i : Nat) (acc : List MappedBuffer),
      (mapBuffersLoop d n i acc).1 = true →
      (mapBuffersLoop d n i acc).2.length = acc.length + n := by
  intro n
  induction n with
  | zero => intro i acc _; simp [mapBuffersLoop]
  | succ m ih =>
      intro i acc h
      cases hq : d.querybufOk i with
      | false => simp [mapBuffersLoop, hq] at h
      | true =>
          cases ha : d.mmapAddr i with
          | none => simp [mapBuffersLoop, hq, ha] at h
          | some addr =>
              simp only [mapBuffersLoop, hq, ha, if_true] at h ⊢
              rw [ih _ _ h]
              simp
              omega

/-- On a successful `allocateInternalBuffers` with `REQBUFS` granting
`granted` (a `__u32`, hence below 2^32): the ring grew by `granted`
mappings, the effective configured buffer count equals `granted`, and the
handle, streaming flag and negotiated image size are untouched. -/
theorem allocateInternalBuffers_success (d : Driver) (c : V4L2Capture)
    (granted : Nat) (hreq : d.reqbufs = some granted)
    (hlt : granted < 2 ^ 32)
    (hok : (allocateInternalBuffers d c).1 = true) :
    (allocateInternalBuffers d c).2.internalBuffers.length
        = c.internalBuffers.length + granted ∧
      toUint32 (Get (allocateInternalBuffers d c).2
          CaptureParam.V4L2_BUFFERS_NUM) = granted ∧
      (allocateInternalBuffers d c).2.isStreaming = c.isStreaming ∧
      (allocateInternalBuffers d c).2.handle = c.handle ∧
      (allocateInternalBuffers d c).2.imageSize = c.imageSize := by
  have htu : toUint32 (Int.ofNat granted) = granted := by
    have h0 : (0 : Int) ≤ Int.ofNat granted := by
      rw [Int.ofNat_eq_natCast]
      exact Int.natCast_nonneg granted
    have h1 : Int.ofNat granted < (2 : Int) ^ 32 := by
      rw [Int.ofNat_eq_natCast]
      exact_mod_cast hlt
    simp only [toUint32]
    rw [Int.emod_eq_of_lt h0 h1]
    simp [Int.ofNat_eq_natCast]
  by_cases hne : granted ≠ toUint32 (Get c CaptureParam.V4L2_BUFFERS_NUM)
  · simp only [allocateInternalBuffers, hreq] at hok ⊢
    rw [if_pos hne] at hok ⊢
    refine ⟨?_, ?_, rfl, rfl, rfl⟩
    · exact mapBuffersLoop_length d granted 0 c.internalBuffers hok
    · simpa [Get, updateParam] using htu
  · simp only [allocateInternalBuffers, hreq] at hok ⊢
    rw [if_neg hne] at hok ⊢
    refine ⟨?_, ?_, rfl, rfl, rfl⟩
    · exact mapBuffersLoop_length d granted 0 c.internalBuffers hok
    · exact (not_ne_iff.mp hne).symm

/-- A successful `enableStreaming` only flips the streaming flag. -/
theorem enableStreaming_success (d : Driver) (c : V4L2Capture)
    (hok : (enableStreaming d c).1 = true) :
    (enableStreaming d c).2 = { c with isStreaming := true } := by
  unfold enableStreaming at hok ⊢
  cases hq : qbufLoop d (toUint32 (Get c CaptureParam.V4L2_BUFFERS_NUM)) 0 <;>
    cases hso : d.streamonOk <;> simp [hq, hso] at hok ⊢

/-- A successful `startTail` (the start path past the capability check) with
`REQBUFS` granting `granted`: the ring grew by exactly `granted` mappings,
the effective configured buffer count equals `granted`, the object is
streaming and the handle is untouched. -/
theorem startTail_success (d : Driver) (c : V4L2Capture) (granted : Nat)
    (hreq : d.reqbufs = some granted) (hlt : granted < 2 ^ 32)
    (hok : (startTail d c).1 = true) :
    (startTail d c).2.internalBuffers.length
        = c.internalBuffers.length + granted ∧
      toUint32 (Get (startTail d c).2 CaptureParam.V4L2_BUFFERS_NUM)
        = granted ∧
      (startTail d c).2.isStreaming = true ∧
      (startTail d c).2.handle = c.handle := by
  unfold startTail at hok ⊢
  cases htf : d.tryFmtOk with
  | false => simp [negotiateFormat, htf] at hok
  | true =>
  cases hsf : d.sfmt with
  | none => simp [negotiateFormat, htf, hsf] at hok
  | some f =>
  cases hsp : d.sparm with
  | none => simp [negotiateFormat, negotiateFrameRate, htf, hsf, hsp] at hok
  | some den =>
  simp only [negotiateFormat, negotiateFrameRate, htf, hsf, hsp, if_true,
    Int.ofNat_eq_natCast] at hok ⊢
  cases hal : (allocateInternalBuffers d
      { c with
        imageStep := f.bytesperline, imageSize := f.sizeimage,
        params := (updateParam c.params CaptureParam.FRAME_RATE
          ((den : Int))) }).1 with
  | false => simp [hal] at hok
  | true =>
    simp only [hal, eq_self_iff_true, if_true] at hok ⊢
    have halloc := allocateInternalBuffers_success d _ granted hreq hlt hal
    have hen := enableStreaming_success d _ hok
    rw [hen]
    exact ⟨by simpa using halloc.1, by simpa [Get] using halloc.2.1, rfl,
      by simpa using halloc.2.2.2.1⟩

/-- A successful `StopStreaming` on an opened, streaming object with a
non-empty ring empties the ring and its teardown trace is one `MUNMAP` per
ring element followed by `REQBUFS(count = 0)`. -/
theorem StopStreaming_success_teardown (d : Driver) (c : V4L2Capture)
    (ho : IsOpened c = true) (hs : IsStreaming c = true)
    (hne : c.internalBuffers ≠ [])
    (hstop : (StopStreaming d c).1 = true) :
    (StopStreaming d c).2.1.internalBuffers = [] ∧
      (StopStreaming d c).2.2
        = c.internalBuffers.map
            (fun b => IoctlOp.MUNMAP b.rawDataPtr b.length)
          ++ [IoctlOp.REQBUFS 0] := by
  cases hoff : d.streamoffOk with
  | false => simp [StopStreaming, ho, hs, disableSteaming, hoff] at hstop
  | true =>
      constructor <;>
        simp [StopStreaming, ho, hs, disableSteaming, hoff,
          cleanupInternalBuffers, List.isEmpty_iff, hne]

/-- C3: for a genuine successful start (opened, not yet streaming, empty
ring; `REQBUFS` grants a positive `__u32` count), the number of live mmap
regions in the ring equals the effective configured buffer count; and a
subsequent successful stop empties the ring, its teardown unmapping each
buffer exactly once (one `MUNMAP` per ring element) before issuing
`REQBUFS(count = 0)`. -/
theorem ring_size_matches_buffer_count (d d2 : Driver) (c : V4L2Capture)
    (granted : Nat) (hopen : IsOpened c = true)
    (hns : IsStreaming c = false) (hempty : c.internalBuffers = [])
    (hreq : d.reqbufs = some granted) (hlt : granted < 2 ^ 32)
    (hpos : 0 < granted)
    (hstart : (StartStreaming d c).1 = true) :
    (StartStreaming d c).2.internalBuffers.length
        = toUint32 (Get (StartStreaming d c).2
            CaptureParam.V4L2_BUFFERS_NUM) ∧
      ((StopStreaming d2 (StartStreaming d c).2).1 = true →
        (StopStreaming d2 (StartStreaming d c).2).2.1.internalBuffers = [] ∧
        (StopStreaming d2 (StartStreaming d c).2).2.2
          = (StartStreaming d c).2.internalBuffers.map
              (fun b => IoctlOp.MUNMAP b.rawDataPtr b.length)
            ++ [IoctlOp.REQBUFS 0]) := by
  have hSs : StartStreaming d c = startTail d c := by
    cases hcap : checkSupportedCapabilities d with
    | false => simp [StartStreaming, hopen, hns, hcap] at hstart
    | true => simp [StartStreaming, hopen, hns, hcap]
  rw [hSs] at hstart ⊢
  have hst := startTail_success d c granted hreq hlt hstart
  have hlen : (startTail d c).2.internalBuffers.length = granted := by
    rw [hst.1, hempty]
    simp
  refine ⟨by rw [hlen, hst.2.1], fun hstop => ?_⟩
  have hne : (startTail d c).2.internalBuffers ≠ [] := by
    intro hx
    rw [hx] at hlen
    simp at hlen
    omega
  have ho2 : IsOpened (startTail d c).2 = true := by
    simp only [IsOpened] at hopen ⊢
    rw [hst.2.2.2]
    exact hopen
  have hs2 : IsStreaming (startTail d c).2 = true := hst.2.2.1
  exact StopStreaming_success_teardown d2 (startTail d c).2 ho2 hs2 hne hstop

theorem ring_size_matches_buffer_count_witness :
    IsOpened openedCapture = true ∧ IsStreaming openedCapture = false ∧
      openedCapture.internalBuffers = [] ∧ okDriver.reqbufs = some 4 ∧
      (4 < 2 ^ 32 ∧ 0 < 4) ∧
      (StartStreaming okDriver openedCapture).1 = true ∧
      ((StartStreaming okDriver openedCapture).2.internalBuffers.length
          = toUint32 (Get (StartStreaming okDriver openedCapture).2
              CaptureParam.V4L2_BUFFERS_NUM) ∧
        ((StopStreaming okDriver
              (StartStreaming okDriver openedCapture).2).1 = true →
          (StopStreaming okDriver
              (StartStreaming okDriver openedCapture).2).2.1.internalBuffers
            = [] ∧
          (StopStreaming okDriver
              (StartStreaming okDriver openedCapture).2).2.2
            = (StartStreaming okDriver
                openedCapture).2.internalBuffers.map
                (fun b => IoctlOp.MUNMAP b.rawDataPtr b.length)
              ++ [IoctlOp.REQBUFS 0])) :=
  ⟨rfl, rfl, rfl, rfl, ⟨by decide, by decide⟩, by decide,
    ring_size_matches_buffer_count okDriver okDriver openedCapture 4 rfl rfl
      rfl rfl (by decide) (by decide) (by decide)⟩

end lirs

